import Mathlib

/-!
# Verification of the annuity pricing engine

Shallow embedding of the pricing engine of `simulateur-pricer`.
The reference engine is `compute_annuity` in `src/GitHub/pricer_engine.py`;
the repository also holds an alternate variant (`compute` in
`src/pricer_engine.py`) whose tier tables `_retro_tier` / `_gestion_tier`
are embedded as well.  Python floats are modelled as rationals (`ℚ`);
Python's `round` (banker's rounding, ties to even) is modelled by
`roundHalfEven`.
-/

namespace Pricer

/-- Floor of a rational, computed on its normal form (kernel-reducible). -/
def ratFloor (x : ℚ) : ℤ := x.num / x.den

/-- Round a rational to the nearest integer, ties to even — the behaviour of
Python's built-in `round` used at `src/GitHub/pricer_engine.py:86`. -/
def roundHalfEven (x : ℚ) : ℤ :=
  if x - ratFloor x < 1/2 then ratFloor x
  else if 1/2 < x - ratFloor x then ratFloor x + 1
  else if ratFloor x % 2 = 0 then ratFloor x else ratFloor x + 1

/-- Python's `round(x, 6)`: round to 6 decimal places, ties to even. -/
def round6 (x : ℚ) : ℚ :=
  (roundHalfEven (x * 1000000) : ℚ) / 1000000

/-- The EUR leg of `_CURVE` (`src/GitHub/pricer_engine.py`, lines 7–11):
market rate in percent for each tenor 1..15. -/
def CURVE_EUR : ℤ → Option ℚ := fun y =>
  if y = 1 then some (2336/1000) else if y = 2 then some (2457/1000)
  else if y = 3 then some (2627/1000) else if y = 4 then some (2823/1000)
  else if y = 5 then some (3012/1000) else if y = 6 then some (31735/10000)
  else if y = 7 then some (3335/1000) else if y = 8 then some (3463/1000)
  else if y = 9 then some (3577/1000) else if y = 10 then some (3692/1000)
  else if y = 11 then some (38028/10000) else if y = 12 then some (39136/10000)
  else if y = 13 then some (40244/10000) else if y = 14 then some (41352/10000)
  else if y = 15 then some (4246/1000) else none

/-- The USD leg of `_CURVE` (`src/GitHub/pricer_engine.py`, lines 12–16). -/
def CURVE_USD : ℤ → Option ℚ := fun y =>
  if y = 1 then some (4215/1000) else if y = 2 then some (4100/1000)
  else if y = 3 then some (4127/1000) else if y = 4 then some (4238/1000)
  else if y = 5 then some (4382/1000) else if y = 6 then some (45470/10000)
  else if y = 7 then some (4717/1000) else if y = 8 then some (4873/1000)
  else if y = 9 then some (5010/1000) else if y = 10 then some (5132/1000)
  else if y = 11 then some (52410/10000) else if y = 12 then some (53500/10000)
  else if y = 13 then some (5426667/1000000) else if y = 14 then some (5503333/1000000)
  else if y = 15 then some (5580/1000) else none

/-- `_CURVE`: mapping from currency code to per-tenor rate table
(`src/GitHub/pricer_engine.py`, lines 6–17). -/
def CURVE : String → Option (ℤ → Option ℚ) := fun c =>
  if c = "EUR" then some CURVE_EUR
  else if c = "USD" then some CURVE_USD
  else none

/-- `_retro_rate` (`src/GitHub/pricer_engine.py`, lines 20–26):
retrocession rate by amount tier. -/
def retro_rate_tier (amount : ℚ) : ℚ :=
  if amount < 10000000 then 21/10000
  else if amount < 15000000 then 18/10000
  else 15/10000

/-- `_gestion_rate_with_retro` (`src/GitHub/pricer_engine.py`, lines 29–35):
management rate by amount tier when retrocession is included. -/
def gestion_rate_with_retro (amount : ℚ) : ℚ :=
  if amount < 10000000 then 49/10000
  else if amount < 15000000 then 42/10000
  else 35/10000

/-- `_gestion_rate_without_retro` (`src/GitHub/pricer_engine.py`, lines 38–44):
management rate by amount tier when retrocession is excluded. -/
def gestion_rate_without_retro (amount : ℚ) : ℚ :=
  if amount < 10000000 then 60/10000
  else if amount < 15000000 then 50/10000
  else 40/10000

/-- The two `ValueError` raise sites of `compute_annuity`
(`src/GitHub/pricer_engine.py`, lines 59–62), kept distinguishable. -/
inductive PricerError where
  | unsupportedCurrency (currency : String)
  | unsupportedTerm (years : ℤ)
deriving DecidableEq, Repr

/-- The dictionary returned by `compute_annuity`
(`src/GitHub/pricer_engine.py`, lines 88–95). -/
structure PricerResult where
  rente_annuelle_arrondie : ℤ
  gestion_rate : ℚ
  retro_rate : ℚ
  garde_rate : ℚ
  frais_contrat : ℚ
  total_frais : ℚ
deriving DecidableEq, Repr

/-- `compute_annuity` (`src/GitHub/pricer_engine.py`, lines 46–95): the
reference pricing operation.  Validates currency and term against `_CURVE`,
selects the fee tiers, clamps the contract fee at zero, sums the total fee
without the retrocession rate, and rounds the net annuity to the nearest
integer. -/
def compute_annuity (amount : ℚ) (currency : String) (years : ℤ)
    (include_retro : Bool) (extra_contract_fee : ℚ) :
    Except PricerError PricerResult :=
  match CURVE currency with
  | none => .error (.unsupportedCurrency currency)
  | some table =>
    match table years with
    | none => .error (.unsupportedTerm years)
    | some rate =>
      let curve_rate := rate / 100
      let gestion_rate :=
        if include_retro then gestion_rate_with_retro amount
        else gestion_rate_without_retro amount
      let retro_rate := if include_retro then retro_rate_tier amount else 0
      let garde_rate : ℚ := 10/10000
      let contract_rate := max 0 extra_contract_fee
      let total_frais := gestion_rate + garde_rate + contract_rate
      let rente_nette := amount * curve_rate * (1 - total_frais)
      .ok { rente_annuelle_arrondie := roundHalfEven rente_nette
            gestion_rate := round6 gestion_rate
            retro_rate := round6 retro_rate
            garde_rate := round6 garde_rate
            frais_contrat := round6 contract_rate
            total_frais := round6 total_frais }

/-- `_retro_tier` from the alternate variant
(`src/pricer_engine.py`, lines 50–64): same tiers, with the
retro-off short-circuit folded in. -/
def retro_tier (montant : ℚ) (retro_on : Bool) : ℚ :=
  if !retro_on then 0
  else if montant < 10000000 then 21/10000
  else if montant < 15000000 then 18/10000
  else 15/10000

/-- `_gestion_tier` from the alternate variant
(`src/pricer_engine.py`, lines 67–90). -/
def gestion_tier (montant : ℚ) (retro_on : Bool) : ℚ :=
  if retro_on then
    if montant < 10000000 then 49/10000
    else if montant < 15000000 then 42/10000
    else 35/10000
  else
    if montant < 10000000 then 60/10000
    else if montant < 15000000 then 50/10000
    else 40/10000

end Pricer

namespace Pricer

/-! ## Properties of the rounding model -/

lemma ratFloor_eq_floor (x : ℚ) : ratFloor x = ⌊x⌋ :=
  Rat.floor_def.symm

lemma roundHalfEven_intCast (n : ℤ) : roundHalfEven (n : ℚ) = n := by
  unfold roundHalfEven
  rw [ratFloor_eq_floor, Int.floor_intCast]
  norm_num

/-- Shifting the argument by an even integer shifts the half-even rounding. -/
lemma roundHalfEven_int_add (n : ℤ) (x : ℚ) (hn : n % 2 = 0) :
    roundHalfEven ((n : ℚ) + x) = n + roundHalfEven x := by
  unfold roundHalfEven
  rw [ratFloor_eq_floor, ratFloor_eq_floor, Int.floor_int_add]
  have e : (n : ℚ) + x - ((n + ⌊x⌋ : ℤ) : ℚ) = x - (⌊x⌋ : ℚ) := by
    push_cast; ring
  rw [e]
  split_ifs <;> omega

/-- Half-even rounding maps every integer-plus-one-half input to the even
neighbour. -/
lemma roundHalfEven_half (k : ℤ) :
    roundHalfEven ((k : ℚ) + 1/2) = if k % 2 = 0 then k else k + 1 := by
  unfold roundHalfEven
  rw [ratFloor_eq_floor]
  have hf : ⌊(k : ℚ) + 1/2⌋ = k := by
    rw [Int.floor_int_add]
    norm_num
  rw [hf]
  have e : (k : ℚ) + 1/2 - (k : ℚ) = 1/2 := by ring
  rw [e]
  simp

/-- Half-even rounding is a nearest-integer rounding: the result is within
one half of the argument. -/
lemma roundHalfEven_nearest (x : ℚ) : |x - (roundHalfEven x : ℚ)| ≤ 1/2 := by
  have h1 : ((⌊x⌋ : ℤ) : ℚ) ≤ x := Int.floor_le x
  have h2 : x < (⌊x⌋ : ℚ) + 1 := Int.lt_floor_add_one x
  unfold roundHalfEven
  rw [ratFloor_eq_floor, abs_sub_le_iff]
  split_ifs with ha hb hc
  · constructor <;> linarith
  · constructor <;> push_cast <;> linarith
  · rw [not_lt] at ha hb
    constructor <;> linarith
  · rw [not_lt] at ha hb
    constructor <;> push_cast <;> linarith

/-- `round6` is the identity on multiples of `10⁻⁶`. -/
lemma round6_int_eq (x : ℚ) (m : ℤ) (h : x * 1000000 = m) : round6 x = x := by
  unfold round6
  rw [h, roundHalfEven_intCast, div_eq_iff (by norm_num : (1000000 : ℚ) ≠ 0)]
  exact h.symm

/-- `round6` distributes over adding a multiple of `10⁻⁶` with an even
numerator. -/
lemma round6_int_add (x c : ℚ) (m : ℤ) (hm : m % 2 = 0)
    (h : x * 1000000 = m) : round6 (x + c) = x + round6 c := by
  unfold round6
  have e : (x + c) * 1000000 = (m : ℚ) + c * 1000000 := by rw [← h]; ring
  rw [e, roundHalfEven_int_add m _ hm]
  have hx : x = (m : ℚ) / 1000000 := by
    rw [eq_div_iff (by norm_num : (1000000 : ℚ) ≠ 0)]; exact h
  rw [hx]
  push_cast
  ring

/-- Splitting `round6` of a fee total whose management-plus-custody part is an
even multiple of `10⁻⁶`. -/
lemma round6_total_split (g c : ℚ) (m : ℤ) (hm : m % 2 = 0)
    (hg : g * 1000000 = m) :
    round6 (g + 10/10000 + c) = round6 g + round6 (10/10000) + round6 c := by
  have e2 : round6 (10/10000 : ℚ) = 10/10000 := round6_int_eq _ 1000 (by norm_num)
  have eg : round6 g = g := round6_int_eq _ m hg
  have h : (g + 10/10000) * 1000000 = ((m + 1000 : ℤ) : ℚ) := by
    push_cast
    rw [← hg]
    ring
  rw [round6_int_add (g + 10/10000) c (m + 1000) (by omega) h, eg, e2]

/-! ## Claims -/

/-- C1: for every input accepted by `compute_annuity` (valid currency and
term, any amount, any retrocession flag, any contract fee), the total fee
rate returned equals management rate + custody rate + contract fee rate
exactly; the retrocession rate is never added into or subtracted from this
total, independent of the retrocession flag. -/
theorem total_fee_excludes_retro (amount fee : ℚ) (currency : String)
    (years : ℤ) (retro : Bool) (table : ℤ → Option ℚ) (rate : ℚ)
    (hc : CURVE currency = some table) (ht : table years = some rate) :
    ∃ r, compute_annuity amount currency years retro fee = .ok r ∧
      r.total_frais = r.gestion_rate + r.garde_rate + r.frais_contrat := by
  simp only [compute_annuity, hc, ht]
  refine ⟨_, rfl, ?_⟩
  dsimp only
  cases retro
  · simp only [Bool.false_eq_true, if_false]
    unfold gestion_rate_without_retro
    split_ifs
    · exact round6_total_split _ _ 6000 (by decide) (by norm_num)
    · exact round6_total_split _ _ 5000 (by decide) (by norm_num)
    · exact round6_total_split _ _ 4000 (by decide) (by norm_num)
  · simp only [if_true]
    unfold gestion_rate_with_retro
    split_ifs
    · exact round6_total_split _ _ 4900 (by decide) (by norm_num)
    · exact round6_total_split _ _ 4200 (by decide) (by norm_num)
    · exact round6_total_split _ _ 3500 (by decide) (by norm_num)

/-- C1 witness: a concrete accepted input on which the proved identity holds. -/
theorem total_fee_excludes_retro_witness :
    ∃ r, compute_annuity 5000000 "EUR" 5 true (1/2000) = .ok r ∧
      r.total_frais = r.gestion_rate + r.garde_rate + r.frais_contrat :=
  total_fee_excludes_retro 5000000 (1/2000) "EUR" 5 true CURVE_EUR
    (3012/1000) rfl rfl

/-- C2: for every valid request, `compute_annuity` returns a net annuity
equal to amount × (market rate / 100) × (1 − total fee rate) rounded to the
nearest integer (half-even, within one half of the exact value), and the
management, retrocession, custody, contract and total fee rates each rounded
to 6 decimal places. -/
theorem compute_annuity_formula (amount fee : ℚ) (currency : String)
    (years : ℤ) (retro : Bool) (table : ℤ → Option ℚ) (rate : ℚ)
    (hc : CURVE currency = some table) (ht : table years = some rate)
    (_hpos : 0 < amount) :
    ∃ r, compute_annuity amount currency years retro fee = .ok r ∧
      r.rente_annuelle_arrondie =
        roundHalfEven (amount * (rate / 100) *
          (1 - ((if retro then gestion_rate_with_retro amount
                 else gestion_rate_without_retro amount) + 10/10000 + max 0 fee))) ∧
      |amount * (rate / 100) *
          (1 - ((if retro then gestion_rate_with_retro amount
                 else gestion_rate_without_retro amount) + 10/10000 + max 0 fee)) -
        (r.rente_annuelle_arrondie : ℚ)| ≤ 1/2 ∧
      r.gestion_rate = round6 (if retro then gestion_rate_with_retro amount
                               else gestion_rate_without_retro amount) ∧
      r.retro_rate = round6 (if retro then retro_rate_tier amount else 0) ∧
      r.garde_rate = round6 (10/10000) ∧
      r.frais_contrat = round6 (max 0 fee) ∧
      r.total_frais = round6 ((if retro then gestion_rate_with_retro amount
                               else gestion_rate_without_retro amount) + 10/10000 + max 0 fee) := by
  simp only [compute_annuity, hc, ht]
  exact ⟨_, rfl, rfl, roundHalfEven_nearest _, rfl, rfl, rfl, rfl, rfl⟩

/-- C2 witness: the formula instantiated on a concrete valid request. -/
theorem compute_annuity_formula_witness :
    ∃ r, compute_annuity 5000000 "EUR" 5 true 0 = .ok r ∧
      r.rente_annuelle_arrondie =
        roundHalfEven (5000000 * ((3012/1000) / 100) *
          (1 - (gestion_rate_with_retro 5000000 + 10/10000 + max 0 0))) := by
  obtain ⟨r, hr, hform, -⟩ :=
    compute_annuity_formula 5000000 0 "EUR" 5 true CURVE_EUR (3012/1000)
      rfl rfl (by norm_num)
  exact ⟨r, hr, by rw [hform]; norm_num⟩

/-- C3: the retrocession rate returned by `compute_annuity` is 0.0021 below
10,000,000, 0.0018 from 10,000,000 inclusive up to 15,000,000 exclusive, and
0.0015 from 15,000,000 on, when the retrocession flag is set; it is exactly 0
for every amount when the flag is unset. -/
theorem retro_rate_tiers (amount fee : ℚ) (currency : String)
    (years : ℤ) (table : ℤ → Option ℚ) (rate : ℚ)
    (hc : CURVE currency = some table) (ht : table years = some rate) :
    (∃ r, compute_annuity amount currency years true fee = .ok r ∧
      r.retro_rate = if amount < 10000000 then 21/10000
        else if amount < 15000000 then 18/10000 else 15/10000) ∧
    (∃ r, compute_annuity amount currency years false fee = .ok r ∧
      r.retro_rate = 0) := by
  simp only [compute_annuity, hc, ht]
  constructor
  · refine ⟨_, rfl, ?_⟩
    dsimp only
    simp only [if_true]
    unfold retro_rate_tier
    split_ifs
    · exact round6_int_eq _ 2100 (by norm_num)
    · exact round6_int_eq _ 1800 (by norm_num)
    · exact round6_int_eq _ 1500 (by norm_num)
  · refine ⟨_, rfl, ?_⟩
    dsimp only
    simp only [Bool.false_eq_true, if_false]
    exact round6_int_eq _ 0 (by norm_num)

/-- C3 witness: the tier boundary at exactly 10,000,000 with the flag set,
and the zero rate with the flag unset. -/
theorem retro_rate_tiers_witness :
    (∃ r, compute_annuity 10000000 "EUR" 5 true 0 = .ok r ∧
      r.retro_rate = 18/10000) ∧
    (∃ r, compute_annuity 10000000 "EUR" 5 false 0 = .ok r ∧
      r.retro_rate = 0) := by
  obtain ⟨⟨r, hr, hv⟩, h0⟩ :=
    retro_rate_tiers 10000000 0 "EUR" 5 CURVE_EUR (3012/1000) rfl rfl
  refine ⟨⟨r, hr, ?_⟩, h0⟩
  rw [hv]
  norm_num

/-- C4: the management rate used by `compute_annuity` comes from one of two
disjoint tier tables selected by the retrocession flag (0.0049/0.0042/0.0035
with retrocession, 0.0060/0.0050/0.0040 without, at breakpoints 10,000,000
and 15,000,000, inclusive-lower/exclusive-upper); within each mode the rate
strictly decreases across the breakpoints, and at every amount the
with-retrocession rate is strictly lower than the without-retrocession rate.
The alternate variant's `_gestion_tier` implements the same two tables. -/
theorem gestion_rate_tiers (amount fee : ℚ) (currency : String)
    (years : ℤ) (retro : Bool) (table : ℤ → Option ℚ) (rate : ℚ)
    (hc : CURVE currency = some table) (ht : table years = some rate) :
    (∃ r, compute_annuity amount currency years retro fee = .ok r ∧
      r.gestion_rate = if retro then gestion_rate_with_retro amount
                       else gestion_rate_without_retro amount) ∧
    gestion_tier amount true = gestion_rate_with_retro amount ∧
    gestion_tier amount false = gestion_rate_without_retro amount ∧
    (amount < 10000000 →
      gestion_rate_with_retro amount = 49/10000 ∧
      gestion_rate_without_retro amount = 60/10000) ∧
    (10000000 ≤ amount → amount < 15000000 →
      gestion_rate_with_retro amount = 42/10000 ∧
      gestion_rate_without_retro amount = 50/10000) ∧
    (15000000 ≤ amount →
      gestion_rate_with_retro amount = 35/10000 ∧
      gestion_rate_without_retro amount = 40/10000) ∧
    (∀ a b : ℚ, a < 10000000 → 10000000 ≤ b →
      gestion_rate_with_retro b < gestion_rate_with_retro a ∧
      gestion_rate_without_retro b < gestion_rate_without_retro a) ∧
    (∀ a b : ℚ, a < 15000000 → 15000000 ≤ b →
      gestion_rate_with_retro b < gestion_rate_with_retro a ∧
      gestion_rate_without_retro b < gestion_rate_without_retro a) ∧
    gestion_rate_with_retro amount < gestion_rate_without_retro amount := by
  refine ⟨?_, ?_, ?_, ?_, ?_, ?_, ?_, ?_, ?_⟩
  · simp only [compute_annuity, hc, ht]
    refine ⟨_, rfl, ?_⟩
    dsimp only
    cases retro
    · simp only [Bool.false_eq_true, if_false]
      unfold gestion_rate_without_retro
      split_ifs
      · exact round6_int_eq _ 6000 (by norm_num)
      · exact round6_int_eq _ 5000 (by norm_num)
      · exact round6_int_eq _ 4000 (by norm_num)
    · simp only [if_true]
      unfold gestion_rate_with_retro
      split_ifs
      · exact round6_int_eq _ 4900 (by norm_num)
      · exact round6_int_eq _ 4200 (by norm_num)
      · exact round6_int_eq _ 3500 (by norm_num)
  · unfold gestion_tier gestion_rate_with_retro
    simp only [if_true]
  · unfold gestion_tier gestion_rate_without_retro
    simp only [Bool.false_eq_true, if_false]
  · intro h
    unfold gestion_rate_with_retro gestion_rate_without_retro
    rw [if_pos h, if_pos h]
    exact ⟨rfl, rfl⟩
  · intro h1 h2
    unfold gestion_rate_with_retro gestion_rate_without_retro
    rw [if_neg (not_lt.mpr h1), if_pos h2, if_neg (not_lt.mpr h1), if_pos h2]
    exact ⟨rfl, rfl⟩
  · intro h
    unfold gestion_rate_with_retro gestion_rate_without_retro
    rw [if_neg (by linarith), if_neg (not_lt.mpr h),
      if_neg (by linarith), if_neg (not_lt.mpr h)]
    exact ⟨rfl, rfl⟩
  · intro a b ha hb
    unfold gestion_rate_with_retro gestion_rate_without_retro
    rw [if_pos ha, if_pos ha, if_neg (not_lt.mpr hb), if_neg (not_lt.mpr hb)]
    split_ifs <;> norm_num
  · intro a b ha hb
    unfold gestion_rate_with_retro gestion_rate_without_retro
    rw [if_neg (by linarith : ¬ b < 10000000), if_neg (not_lt.mpr hb),
      if_neg (by linarith : ¬ b < 10000000), if_neg (not_lt.mpr hb)]
    split_ifs <;> norm_num
  · unfold gestion_rate_with_retro gestion_rate_without_retro
    split_ifs <;> norm_num

/-- C4 witness: the tiers at the 10,000,000 boundary, and the
with-retrocession rate strictly below the without-retrocession rate there. -/
theorem gestion_rate_tiers_witness :
    (∃ r, compute_annuity 10000000 "EUR" 5 true 0 = .ok r ∧
      r.gestion_rate = if true then gestion_rate_with_retro 10000000
                       else gestion_rate_without_retro 10000000) ∧
    gestion_rate_with_retro 10000000 < gestion_rate_without_retro 10000000 := by
  obtain ⟨h1, -, -, -, -, -, -, -, h9⟩ :=
    gestion_rate_tiers 10000000 0 "EUR" 5 true CURVE_EUR (3012/1000) rfl rfl
  exact ⟨h1, h9⟩

/-- C5 counterexample: at currency "GBP", term 20, the term has no entry for
the given currency (the curve has no "GBP" table at all), yet the operation
fails with the unsupported-currency error, not the unsupported-term error —
so "fails with UnsupportedTerm iff the term has no entry for the given
currency" is false as stated. -/
theorem unsupported_term_iff_counterexample :
    CURVE "GBP" = none ∧
    compute_annuity 1 "GBP" 20 false 0 =
      .error (.unsupportedCurrency "GBP") ∧
    compute_annuity 1 "GBP" 20 false 0 ≠
      .error (.unsupportedTerm 20) := by
  refine ⟨rfl, rfl, ?_⟩
  intro h
  exact absurd h (by simp [compute_annuity, CURVE])

/-- C5 amended: `compute_annuity` fails with the unsupported-currency error
iff the currency is not a key of the rate curve; it fails with the
unsupported-term error iff the currency is supported but the term has no
entry for it (the currency check takes precedence); it returns normally for
every supported (currency, term) pair; and the two error kinds are
distinguishable. -/
theorem error_conditions (amount fee : ℚ) (currency : String)
    (years : ℤ) (retro : Bool) :
    (compute_annuity amount currency years retro fee =
        .error (.unsupportedCurrency currency) ↔ CURVE currency = none) ∧
    (compute_annuity amount currency years retro fee =
        .error (.unsupportedTerm years) ↔
      ∃ table, CURVE currency = some table ∧ table years = none) ∧
    ((∃ table rate, CURVE currency = some table ∧ table years = some rate) →
      ∃ r, compute_annuity amount currency years retro fee = .ok r) ∧
    PricerError.unsupportedCurrency currency ≠ .unsupportedTerm years := by
  refine ⟨?_, ?_, ?_, by simp⟩
  all_goals rcases hc : CURVE currency with _ | table
  · simp [compute_annuity, hc]
  · rcases ht : table years with _ | rate
    · simp [compute_annuity, hc, ht]
    · simp [compute_annuity, hc, ht]
  · simp [compute_annuity, hc]
  · rcases ht : table years with _ | rate
    · simp only [compute_annuity, hc, ht]
      constructor
      · intro _
        exact ⟨table, rfl, ht⟩
      · intro _
        trivial
    · simp [compute_annuity, hc, ht]
  · rintro ⟨t, r, hct, -⟩
    exact absurd hct (by simp)
  · rintro ⟨t, r, hct, htr⟩
    rw [Option.some.injEq] at hct
    subst hct
    simp only [compute_annuity, hc, htr]
    exact ⟨_, rfl⟩

/-- C6 counterexample: for amount 5,000,000, currency "EUR", term 5, no
retrocession, no contract fee, the rounded net annuity is 149,546
(the exact value is 149,545.8), not 149,547. -/
theorem scenario_without_retro_counterexample :
    ∃ r, compute_annuity 5000000 "EUR" 5 false 0 = .ok r ∧
      r.rente_annuelle_arrondie = 149546 ∧
      r.rente_annuelle_arrondie ≠ 149547 := by
  refine ⟨_, rfl, ?_, ?_⟩ <;>
    norm_num [compute_annuity, CURVE, CURVE_EUR, gestion_rate_without_retro,
      roundHalfEven, ratFloor]

/-- C6 amended: for amount 5,000,000, currency "EUR", term 5, retrocession
included, no contract fee, `compute_annuity` returns management rate 0.0049,
retrocession rate 0.0021, custody rate 0.0010, total fee 0.0059 and rounded
net annuity 149,711; with retrocession excluded it returns management rate
0.0060, retrocession rate 0, total fee 0.0070 and rounded net annuity
149,546 (exact value 149,545.8). -/
theorem concrete_scenarios :
    (∃ r, compute_annuity 5000000 "EUR" 5 true 0 = .ok r ∧
      r.gestion_rate = 49/10000 ∧ r.retro_rate = 21/10000 ∧
      r.garde_rate = 10/10000 ∧ r.total_frais = 59/10000 ∧
      r.rente_annuelle_arrondie = 149711) ∧
    (∃ r, compute_annuity 5000000 "EUR" 5 false 0 = .ok r ∧
      r.gestion_rate = 60/10000 ∧ r.retro_rate = 0 ∧
      r.total_frais = 70/10000 ∧
      r.rente_annuelle_arrondie = 149546) := by
  constructor
  · refine ⟨_, rfl, ?_, ?_, ?_, ?_, ?_⟩ <;>
      norm_num [compute_annuity, CURVE, CURVE_EUR, gestion_rate_with_retro,
        retro_rate_tier, round6, roundHalfEven, ratFloor]
  · refine ⟨_, rfl, ?_, ?_, ?_, ?_⟩ <;>
      norm_num [compute_annuity, CURVE, CURVE_EUR, gestion_rate_without_retro,
        round6, roundHalfEven, ratFloor]

/-- C7: a negative contract fee is clamped to exactly zero — the result is
the same as with a zero fee and the call completes normally — while a
non-negative contract fee is used as given in the contract-fee field and in
the fee total. -/
theorem contract_fee_clamped (amount fee : ℚ) (currency : String)
    (years : ℤ) (retro : Bool) (table : ℤ → Option ℚ) (rate : ℚ)
    (hc : CURVE currency = some table) (ht : table years = some rate) :
    (∃ r, compute_annuity amount currency years retro fee = .ok r) ∧
    (fee < 0 → compute_annuity amount currency years retro fee =
      compute_annuity amount currency years retro 0) ∧
    (0 ≤ fee → ∃ r, compute_annuity amount currency years retro fee = .ok r ∧
      r.frais_contrat = round6 fee ∧
      r.total_frais = round6 ((if retro then gestion_rate_with_retro amount
        else gestion_rate_without_retro amount) + 10/10000 + fee)) := by
  refine ⟨?_, ?_, ?_⟩
  · simp only [compute_annuity, hc, ht]
    exact ⟨_, rfl⟩
  · intro h
    simp only [compute_annuity, hc, ht]
    rw [max_eq_left h.le, max_self]
  · intro h
    simp only [compute_annuity, hc, ht]
    refine ⟨_, rfl, ?_, ?_⟩ <;> dsimp only <;> rw [max_eq_right h]

/-- C7 witness: a negative fee input completing normally with the clamped,
zero-fee result. -/
theorem contract_fee_clamped_witness :
    compute_annuity 5000000 "EUR" 5 true (-1) =
      compute_annuity 5000000 "EUR" 5 true 0 := by
  obtain ⟨-, h2, -⟩ :=
    contract_fee_clamped 5000000 (-1) "EUR" 5 true CURVE_EUR (3012/1000)
      rfl rfl
  exact h2 (by norm_num)

/-- C8: `compute_annuity` performs no guard on the total fee rate: on the
valid input amount 5,000,000, "EUR", term 5, with contract fee 2, the total
fee exceeds 1, the call returns normally, and the returned net annuity is
negative. -/
theorem no_total_fee_guard :
    ∃ r, compute_annuity 5000000 "EUR" 5 true 2 = .ok r ∧
      1 < r.total_frais ∧ r.rente_annuelle_arrondie < 0 := by
  refine ⟨_, rfl, ?_, ?_⟩ <;>
    norm_num [compute_annuity, CURVE, CURVE_EUR, gestion_rate_with_retro,
      retro_rate_tier, round6, roundHalfEven, ratFloor]

/-- C9: `compute_annuity` is deterministic — two calls whose inputs agree in
every field produce identical results; as a pure function over constant
tables it has no mutable state to change between calls. -/
theorem compute_annuity_deterministic
    (a₁ a₂ f₁ f₂ : ℚ) (c₁ c₂ : String) (y₁ y₂ : ℤ) (b₁ b₂ : Bool)
    (h : a₁ = a₂ ∧ c₁ = c₂ ∧ y₁ = y₂ ∧ b₁ = b₂ ∧ f₁ = f₂) :
    compute_annuity a₁ c₁ y₁ b₁ f₁ = compute_annuity a₂ c₂ y₂ b₂ f₂ := by
  obtain ⟨h1, h2, h3, h4, h5⟩ := h
  rw [h1, h2, h3, h4, h5]

/-- C9 witness: two identical concrete calls yield the identical result. -/
theorem compute_annuity_deterministic_witness :
    compute_annuity 5000000 "EUR" 5 true 0 =
      compute_annuity 5000000 "EUR" 5 true 0 :=
  compute_annuity_deterministic 5000000 5000000 0 0 "EUR" "EUR" 5 5 true true
    ⟨rfl, rfl, rfl, rfl, rfl⟩

/-- C10: the nearest-integer rounding of the net annuity is half-to-even:
whenever the unrounded net annuity lies exactly halfway between two
consecutive integers `k` and `k + 1`, the returned rounded annuity is one of
the two and is even. -/
theorem annuity_rounding_half_even (amount fee : ℚ) (currency : String)
    (years k : ℤ) (retro : Bool) (table : ℤ → Option ℚ) (rate : ℚ)
    (hc : CURVE currency = some table) (ht : table years = some rate)
    (hhalf : amount * (rate / 100) *
      (1 - ((if retro then gestion_rate_with_retro amount
             else gestion_rate_without_retro amount) + 10/10000 + max 0 fee))
      = (k : ℚ) + 1/2) :
    ∃ r, compute_annuity amount currency years retro fee = .ok r ∧
      r.rente_annuelle_arrondie % 2 = 0 ∧
      (r.rente_annuelle_arrondie = k ∨ r.rente_annuelle_arrondie = k + 1) := by
  simp only [compute_annuity, hc, ht]
  refine ⟨_, rfl, ?_, ?_⟩ <;> dsimp only <;> rw [hhalf, roundHalfEven_half]
  · split_ifs <;> omega
  · split_ifs
    · exact Or.inl rfl
    · exact Or.inr rfl

/-- C10 witness: a concrete request whose exact net annuity is exactly one
half, rounded to the even neighbour 0. -/
theorem annuity_rounding_half_even_witness :
    ∃ r, compute_annuity (125000000/7485573) "EUR" 5 true 0 = .ok r ∧
      r.rente_annuelle_arrondie % 2 = 0 := by
  obtain ⟨r, h1, h2, -⟩ :=
    annuity_rounding_half_even (125000000/7485573) 0 "EUR" 5 0 true CURVE_EUR
      (3012/1000) rfl rfl
      (by norm_num [gestion_rate_with_retro])
  exact ⟨r, h1, h2⟩

end Pricer
